import Mathlib

/-!
# Verification of the `bitscan` Twitch-bot core against its specification

A shallow embedding of the protocol engine in `src/twitchbot.py`:
the raw-line message parser (`_IRCMessage.__init__`), the tag decoder
(`_IRCTag.__init__`), the timer subsystem (`_Timer`, `_BotTimers.__loop`),
the session-state updates driven by `TwitchBot.incoming`, the chat-server
discovery fallback (`TwitchBot.__request_chat_server`), the user-variable
store (`TwitchBot.newUserVar`), and the PING/PONG liveness reply.

Python strings are modelled as Lean `String`; the handful of Python string
operations the source uses (single-character `split`, `partition`,
whitespace `split()`, `strip()`, `find`, `startswith`, `in`) are re-implemented
by structural recursion on `List Char` so that every definition evaluates by
`rfl`/`decide`.  Python exceptions are modelled by `Except String`: a thrown
exception is an `Except.error` carrying the exception name.  Wall-clock time
is modelled as an integer number of seconds passed explicitly to the
operations that read `datetime.datetime.now()`.
-/

namespace Bitscan

/-! ## Python string primitives, by structural recursion on `List Char` -/

/-- Split on every character satisfying `p`, keeping empty pieces
(the behaviour of Python `str.split(sep)` for a one-character `sep`). -/
def chSplitP (p : Char → Bool) : List Char → List (List Char)
  | [] => [[]]
  | c :: cs =>
    match chSplitP p cs with
    | [] => [[]]
    | h :: t => if p c then [] :: h :: t else (c :: h) :: t

/-- Python `s.split(sep)` for a single-character separator. -/
def chSplit (sep : Char) (l : List Char) : List (List Char) :=
  chSplitP (fun c => c == sep) l

/-- Python `s.split()` (split on whitespace runs, dropping empty pieces). -/
def chSplitWs (l : List Char) : List (List Char) :=
  (chSplitP Char.isWhitespace l).filter (fun w => !w.isEmpty)

/-- The part of Python `s.partition(sep)[0]`: everything before the first
separator; the whole string when the separator is absent. -/
def chPartitionBefore (sep : Char) : List Char → List Char
  | [] => []
  | c :: cs => if c == sep then [] else c :: chPartitionBefore sep cs

/-- The part of Python `s.partition(sep)[2]`: everything after the first
separator; empty when the separator is absent. -/
def chPartitionAfter (sep : Char) : List Char → List Char
  | [] => []
  | c :: cs => if c == sep then cs else chPartitionAfter sep cs

/-- Python `sep.join(parts)` for a one-character separator. -/
def chJoin (sep : Char) : List (List Char) → List Char
  | [] => []
  | [x] => x
  | x :: y :: rest => x ++ sep :: chJoin sep (y :: rest)

/-- Drop leading whitespace. -/
def chDropWs : List Char → List Char
  | [] => []
  | c :: cs => if c.isWhitespace then chDropWs cs else c :: cs

/-- Python `s.strip()`. -/
def chStrip (l : List Char) : List Char :=
  (chDropWs ((chDropWs l).reverse)).reverse

/-- Does the list start with the given pattern (Python `s.startswith(p)`)? -/
def chStarts : List Char → List Char → Bool
  | [], _ => true
  | _ :: _, [] => false
  | p :: ps, c :: cs => p == c && chStarts ps cs

/-- Index of the first occurrence of `needle` (`none` when absent). -/
def chFindIdx (needle : List Char) : List Char → Option Nat
  | [] => if chStarts needle [] then some 0 else none
  | c :: t =>
    if chStarts needle (c :: t) then some 0
    else (chFindIdx needle (t : List Char)).map (fun i => i + 1)

/-- Python `s.find(needle)`: first index, or `-1` when absent. -/
def pyFindList (needle hay : List Char) : Int :=
  match chFindIdx needle hay with
  | some i => Int.ofNat i
  | none => -1

/-- Digits (with Python-style underscores between digits) accumulated onto
`acc`; `none` when a non-digit appears or an underscore is misplaced. -/
def chDigitsVal (acc : Nat) : List Char → Option Nat
  | [] => some acc
  | '_' :: c :: cs =>
    if c.isDigit then chDigitsVal (acc * 10 + (c.toNat - 48)) cs else none
  | ['_'] => none
  | c :: cs =>
    if c.isDigit then chDigitsVal (acc * 10 + (c.toNat - 48)) cs else none

/-- A nonempty digit string (with internal underscores), or `none`. -/
def parseDigits : List Char → Option Nat
  | [] => none
  | c :: cs => if c.isDigit then chDigitsVal (c.toNat - 48) cs else none

/-- Python `int(s)` for string arguments: optional surrounding whitespace,
optional sign, decimal digits.  `none` models the `ValueError` raised by a
non-numeric literal. -/
def parsePyInt (s : String) : Option Int :=
  match chStrip s.toList with
  | '+' :: rest => (parseDigits rest).map (fun n => (n : Int))
  | '-' :: rest => (parseDigits rest).map (fun n => -(n : Int))
  | rest => (parseDigits rest).map (fun n => (n : Int))

/-- Last element of a list (`none` for the empty list). -/
def lastV {α : Type} : List α → Option α
  | [] => none
  | [a] => some a
  | _ :: b :: t => lastV (b :: t)

/-! ## The tag decoder: `_IRCTag.__init__` (twitchbot.py lines 77-148) -/

/-- The decoded tag record.  Field names and defaults follow the
declarations at the top of `_IRCTag.__init__`.  Python initializes
`badges` to an empty list but only ever assigns strings to it, so it is
modelled as `Option String` (`none` = the never-replaced list default). -/
structure Tag where
  tags : List String := []
  badges : Option String := none
  color : String := ""
  display_name : String := ""
  emotes : String := ""
  msg_id : String := ""
  isMod : Bool := false
  isSub : Bool := false
  isTurbo : Bool := false
  room_id : Int := 0
  user_id : Int := 0
  user_type : String := ""
  isCheer : Bool := false
  bits : Int := 0
  emote_sets : List String := []
  broadcaster_lang : String := ""
  r9k : Bool := false
  subs_only : Bool := false
  slow : Int := 0
  msg_param_months : Int := 0
  system_msg : String := ""
  login : String := ""
  ban_duration : Int := 0
  ban_reason : String := ""
deriving Repr, DecidableEq

/-- The `if item == ... : ... elif ...` chain in `_IRCTag.__init__`
(lines 123-146), applied to one `key=value` pair.  Integer-valued keys go
through `int(value)`, whose `ValueError` on a non-numeric literal is the
`Except.error` case. -/
def applyKV (t : Tag) (item value : String) : Except String Tag :=
  if item = "badges" then .ok { t with badges := some value }
  else if item = "color" then .ok { t with color := value }
  else if item = "display-name" then .ok { t with display_name := value }
  else if item = "emotes" then .ok { t with emotes := value }
  else if item = "id" then .ok { t with msg_id := value }
  else if item = "mod" then .ok { t with isMod := value == "1" }
  else if item = "subscriber" then .ok { t with isSub := value == "1" }
  else if item = "turbo" then .ok { t with isTurbo := value == "1" }
  else if item = "room-id" then
    match parsePyInt value with
    | some n => .ok { t with room_id := n }
    | none => .error "ValueError: invalid literal for int()"
  else if item = "user-id" then
    match parsePyInt value with
    | some n => .ok { t with user_id := n }
    | none => .error "ValueError: invalid literal for int()"
  else if item = "user-type" then .ok { t with user_type := value }
  else if item = "bits" then
    match parsePyInt value with
    | some n => .ok { t with isCheer := true, bits := n }
    | none => .error "ValueError: invalid literal for int()"
  else if item = "emote-sets" then
    .ok { t with emote_sets := (chSplit ',' value.toList).map String.mk }
  else if item = "broadcaster-lang" then .ok { t with broadcaster_lang := value }
  else if item = "r9k" then .ok { t with r9k := value == "1" }
  else if item = "subs-only" then .ok { t with subs_only := value == "1" }
  else if item = "slow" then
    match parsePyInt value with
    | some n => .ok { t with slow := n }
    | none => .error "ValueError: invalid literal for int()"
  else if item = "msg-param-months" then
    match parsePyInt value with
    | some n => .ok { t with msg_param_months := n }
    | none => .error "ValueError: invalid literal for int()"
  else if item = "system-msg" then .ok { t with system_msg := value }
  else if item = "login" then .ok { t with login := value }
  else if item = "ban-duration" then
    match parsePyInt value with
    | some n => .ok { t with ban_duration := n }
    | none => .error "ValueError: invalid literal for int()"
  else if item = "ban-reason" then .ok { t with ban_reason := value }
  else .ok t

/-- One iteration of the `for token in text.split(';')` loop of
`_IRCTag.__init__`: pairs with at least two `=`-separated parts are decoded
and their key recorded in `tags`; other tokens are skipped. -/
def applyTag (t : Tag) (token : String) : Except String Tag :=
  let parts := (chSplit '=' token.toList).map String.mk
  if 2 ≤ parts.length then
    match applyKV t (parts.headD "") (parts.getD 1 "") with
    | .ok t1 => .ok { t1 with tags := t1.tags ++ [parts.headD ""] }
    | .error e => .error e
  else .ok t

/-- The `;`-separated tokens of a raw tag segment after the leading sigil
is removed (`raw_text[1:]` in the source). -/
def tagTokens (raw : String) : List String :=
  (chSplit ';' (raw.toList.drop 1)).map String.mk

/-- Model of `_IRCTag.__init__` as a function from the raw tag segment to the decoded
record; `Except.error` models an escaping exception. -/
def mkIRCTag (raw : String) : Except String Tag :=
  (tagTokens raw).foldlM applyTag {}

/-- The value of a `bits` key=value token (`none` when the token is not a
decodable `bits` entry). -/
def bitsVal? (tok : String) : Option String :=
  if 2 ≤ ((chSplit '=' tok.toList).map String.mk).length then
    if ((chSplit '=' tok.toList).map String.mk).headD "" = "bits" then
      some (((chSplit '=' tok.toList).map String.mk).getD 1 "")
    else none
  else none

/-- All `bits` entry values of a raw tag segment, in order. -/
def bitsValues (raw : String) : List String :=
  (tagTokens raw).filterMap bitsVal?

/-! ## The message parser: `_IRCMessage.__init__` (twitchbot.py lines 29-73) -/

/-- The parsed message record with the defaults declared at the top of
`_IRCMessage.__init__`.  The Python attribute `prefix` is called
`prefixStr` here (`prefix` is reserved in Lean); `self.tag` is always
`None` during parsing and is modelled separately by the dispatcher. -/
structure IRCMessage where
  message : String := ""
  prefixStr : String := ""
  username : String := ""
  host : String := ""
  serv : String := ""
  IRCcmd : String := ""
  IRCparams : List String := []
  body : String := ""
  command : String := ""
  argument : String := ""
deriving Repr, DecidableEq

/-- Model of `_IRCMessage.__init__` as a function from the raw line to the parsed
record; `Except.error` models an escaping exception (the source indexes
`self.message.split()[0]` and `[1]` without a guard).  Note line 59 of the
source: `serv` is assigned `prefix.split('!')[1].split('@')[0]` — the same
expression as `host` — not `[1]`. -/
def mkIRCMessage (text : String) : Except String IRCMessage :=
  let tl := text.toList
  if chStarts [':'] tl then
    if (chSplit ' ' tl).length < 2 then .ok {}
    else
      let message := String.mk (chPartitionAfter ':' tl)
      let wsToks := chSplitWs message.toList
      match wsToks.get? 0 with
      | none => .error "IndexError: list index out of range"
      | some pfxL =>
        let prefixStr := String.mk pfxL
        let uhs :=
          if pfxL.contains '!' && pfxL.contains '@' then
            let exParts := chSplit '!' pfxL
            let atParts := chSplit '@' (exParts.getD 1 [])
            (String.mk (exParts.headD []),
             String.mk (atParts.headD []),
             String.mk (atParts.headD []))
          else ("", "", "")
        match wsToks.get? 1 with
        | none => .error "IndexError: list index out of range"
        | some cmdL =>
          let spaceToks := chSplit ' ' message.toList
          let IRCparams :=
            ((spaceToks.drop 2).takeWhile (fun tok => !chStarts [':'] tok)).map String.mk
          let colonParts := chSplit ':' tl
          if 2 < colonParts.length then
            let body := String.mk (chJoin ':' (colonParts.drop 2))
            let bodySp := chSplit ' ' body.toList
            let argument :=
              if 1 < bodySp.length then String.mk (chPartitionAfter ' ' body.toList) else ""
            .ok { message := message, prefixStr := prefixStr,
                  username := uhs.1, host := uhs.2.1, serv := uhs.2.2,
                  IRCcmd := String.mk cmdL, IRCparams := IRCparams,
                  body := body, command := String.mk (bodySp.headD []),
                  argument := argument }
          else
            .ok { message := message, prefixStr := prefixStr,
                  username := uhs.1, host := uhs.2.1, serv := uhs.2.2,
                  IRCcmd := String.mk cmdL, IRCparams := IRCparams }
  else .ok {}

/-! ## The timer: `_Timer` (twitchbot.py lines 152-222)

Wall-clock instants and delays are integers (seconds).  `random.randint`
raises `ValueError` for non-integer arguments, modelled by the error case
of the random branch of `setDelay`. -/

/-- An entry of a `rrange` tuple, keeping track of its Python runtime type
for the `isinstance(x, int)` test in `setDelay`. -/
inductive RItem where
  | rInt (n : Int)
  | rFloat (n : Int)
  | rStr (s : String)
deriving Repr, DecidableEq

/-- Python `isinstance(x, int)` on a range entry. -/
def isInstInt : RItem → Bool
  | .rInt _ => true
  | _ => false

/-- The `_Timer` record with the defaults of `_Timer.__init__`
(`None` delays are modelled as `0`, never observed before setup). -/
structure Timer where
  timerType : String := ""
  rawDelay : Int := 0
  time_d : Int := 0
  random : Bool := false
  randRange : List RItem := []
  loop : Bool := false
  active : Bool := false
deriving Repr, DecidableEq

/-- Model of `_Timer.__init__`: validates the type string. -/
def initTimer (ttype : String) : Except String Timer :=
  if ttype = "sec" || ttype = "min" || ttype = "hr" then .ok { timerType := ttype }
  else .error "ValueError: type needs to be sec, min, or hr"

/-- The `now = datetime.datetime.now(); if self.timerType == ...` tail of
`_Timer.setDelay` (lines 199-208): the next-fire instant in seconds. -/
def setTimeD (now delay : Int) (t : Timer) : Timer :=
  if t.timerType = "sec" then { t with time_d := now + delay }
  else if t.timerType = "min" then { t with time_d := now + delay * 60 }
  else if t.timerType = "hr" then { t with time_d := now + delay * 3600 }
  else t

/-- Model of `_Timer.setDelay` (lines 191-208).  In the random branch the source
raises `ValueError("Random range must be two integer values.")` whenever
`any(isinstance(x, int) for x in self.randRange)` holds — i.e. exactly when
some entry IS an integer — and otherwise reaches
`random.randint(lo, hi)`, which itself raises for the remaining
(non-integer) entries.  The random branch therefore always raises. -/
def setDelay (now delay : Int) (t : Timer) : Except String Timer :=
  if t.random then
    if t.randRange.length ≠ 2 then
      .error "ValueError: Timer random range needs two specified values."
    else if t.randRange.any isInstInt then
      .error "ValueError: Random range must be two integer values."
    else
      .error "ValueError: non-integer argument to randint"
  else .ok (setTimeD now delay t)

/-- Model of `_Timer.setupDiscreteTimer` (lines 172-177). -/
def setupDiscreteTimer (now delay : Int) (loop : Bool) (t : Timer) : Except String Timer :=
  let t := { t with loop := loop, rawDelay := delay, random := false }
  match setDelay now delay t with
  | .ok t2 => .ok { t2 with active := true }
  | .error e => .error e

/-- Model of `_Timer.setupRandomTimer` (lines 179-188). -/
def setupRandomTimer (now : Int) (rrange : List RItem) (loop : Bool) (t : Timer) :
    Except String Timer :=
  let t := { t with loop := loop, rawDelay := 0, random := true, randRange := rrange }
  if t.randRange.length ≠ 2 then
    .error "ValueError: Timer random range needs two specified values."
  else
    match setDelay now 0 t with
    | .ok t2 => .ok { t2 with active := true }
    | .error e => .error e

/-- Model of `_Timer.check` (lines 210-222): returns the fired flag and the updated
timer; firing deactivates a non-looping timer and re-arms a looping one. -/
def check (now : Int) (t : Timer) : Except String (Bool × Timer) :=
  if t.active then
    if t.time_d ≤ now then
      if t.loop then
        match setDelay now t.rawDelay t with
        | .ok t2 => .ok (true, t2)
        | .error e => .error e
      else .ok (true, { t with active := false })
    else .ok (false, t)
  else .ok (false, t)

/-! ## The scheduler sweep: `_BotTimers.__loop` (twitchbot.py lines 245-257) -/

/-- One timer-list entry as built by `TwitchBot.addTimer` (lines 462-483);
the callback and its arguments are abstracted by the entry code, and a
sweep reports the codes whose callbacks it invoked. -/
structure TEntry where
  timer : Timer
  code : Nat
  paused : Bool
deriving Repr, DecidableEq

/-- Model of `TwitchBot.addTimer` (lines 462-483), up to the entry it appends:
builds a `_Timer`, runs the discrete or random setup, and wraps it with the
next timer code and an unpaused flag. -/
def addTimer (now : Int) (ttype : String) (delay : Int) (rand : Bool)
    (rrange : List RItem) (loop : Bool) (code : Nat) : Except String TEntry := do
  let t ← initTimer ttype
  let t ←
    if rand then setupRandomTimer now rrange loop t
    else setupDiscreteTimer now delay loop t
  .ok { timer := t, code := code, paused := false }

/-- One sweep of `_BotTimers.__loop` (lines 246-256): every entry is
`check`ed (mutating the timer), its callback runs when the check fired, the
scheduler is active and the entry is unpaused, and entries whose timer is
no longer active are swept out.  Returns the surviving entries and the
codes of the callbacks that ran, in order. -/
def sweep (now : Int) (schedActive : Bool) : List TEntry → Except String (List TEntry × List Nat)
  | [] => .ok ([], [])
  | e :: rest => do
    let (res, t2) ← check now e.timer
    let (es, fired) ← sweep now schedActive rest
    let keep : List TEntry := if t2.active then [{ e with timer := t2 }] else []
    let f : List Nat := if res && schedActive && !e.paused then [e.code] else []
    .ok (keep ++ es, f ++ fired)

/-- Model of `TwitchBot.resumeTimer` (lines 496-501): clear the paused flag of every
entry with the given code. -/
def resumeEntries (code : Nat) (es : List TEntry) : List TEntry :=
  es.map (fun e => if e.code = code then { e with paused := false } else e)

/-- Model of `TwitchBot.pauseTimer` (lines 490-495): set the paused flag of every
entry with the given code. -/
def pauseEntries (code : Nat) (es : List TEntry) : List TEntry :=
  es.map (fun e => if e.code = code then { e with paused := true } else e)

/-! ## Session state: `TwitchBot.incoming` and the userlist commands
(twitchbot.py lines 600-640 and 722-787) -/

/-- The session-state fields of `TwitchBot` that `incoming` mutates. -/
structure BotState where
  userlist : List String := []
  modlist : List String := []
  subs_on : Bool := false
  slow_on : Bool := false
  r9k_on : Bool := false
  host_on : Bool := false
  emote_only_on : Bool := false
  msg_channel_suspended : Bool := false
  broadcaster_lang : String := ""
deriving Repr, DecidableEq

/-- Model of `TwitchBot.__appendUser` (lines 722-734).  The `username[0]` subscript
after stripping raises `IndexError` on a whitespace-only name. -/
def appendUser (s : BotState) (username : String) : Except String BotState :=
  if username.length < 1 then .ok s
  else
    match chStrip username.toList with
    | [] => .error "IndexError: string index out of range"
    | c :: rest =>
      if c == '%' || c == '@' || c == '&' then
        let u2 := String.mk rest
        let ml := if u2 ∈ s.modlist then s.modlist else s.modlist ++ [u2]
        let ul := if u2 ∈ s.userlist then s.userlist else s.userlist ++ [u2]
        .ok { s with modlist := ml, userlist := ul }
      else
        let u := String.mk (c :: rest)
        .ok { s with userlist := if u ∈ s.userlist then s.userlist else s.userlist ++ [u] }

/-- Model of `TwitchBot.__removeUser` (lines 736-742); Python `list.remove` deletes
the first occurrence and is guarded by a membership test. -/
def removeUser (s : BotState) (username : String) : BotState :=
  let u := String.mk (chStrip username.toList)
  let ul := if u ∈ s.userlist then s.userlist.erase u else s.userlist
  let ml := if u ∈ s.modlist then s.modlist.erase u else s.modlist
  { s with userlist := ul, modlist := ml }

/-- Model of `TwitchBot.__updateUser` (lines 744-758): a `+`/`-` mode string with
one of the elevation letters adds/removes the target from the mod list. -/
def updateUser (s : BotState) (params : List String) : BotState :=
  if params.length < 3 then s
  else
    let modeset := (params.getD 1 "").toList
    let u := String.mk (chStrip (params.getD 2 "").toList)
    if chStarts ['+'] modeset then
      if modeset.contains 'o' || modeset.contains 'a' || modeset.contains 'h' then
        if u ∈ s.modlist then s else { s with modlist := s.modlist ++ [u] }
      else s
    else if chStarts ['-'] modeset then
      if modeset.contains 'o' || modeset.contains 'a' || modeset.contains 'h' then
        if u ∈ s.modlist then { s with modlist := s.modlist.erase u } else s
      else s
    else s

/-- Model of `TwitchBot.__setUserList` (lines 760-762): append every space-separated
name of the 353 body. -/
def setUserList (s : BotState) (body : String) : Except String BotState :=
  ((chSplit ' ' body.toList).map String.mk).foldlM appendUser s

/-- Model of `TwitchBot.__updateNotice` (lines 775-787). -/
def updateNotice (s : BotState) (msg_id : String) : BotState :=
  if msg_id = "subs_on" then { s with subs_on := true }
  else if msg_id = "slow_on" then { s with slow_on := true }
  else if msg_id = "r9k_on" then { s with r9k_on := true }
  else if msg_id = "host_on" then { s with host_on := true }
  else if msg_id = "emote_only_on" then { s with emote_only_on := true }
  else if msg_id = "msg_channel_suspended" then { s with msg_channel_suspended := true }
  else if msg_id = "subs_off" then { s with subs_on := false }
  else if msg_id = "slow_off" then { s with slow_on := false }
  else if msg_id = "r9k_off" then { s with r9k_on := false }
  else if msg_id = "host_off" then { s with host_on := false }
  else if msg_id = "emote_only_off" then { s with emote_only_on := false }
  else s

/-- Model of `TwitchBot.__updateRoomstate` (lines 764-773): copy each tag value
whose key is present in the raw key set into the matching scalar field. -/
def updateRoomstate (s : BotState) (t : Tag) : BotState :=
  t.tags.foldl
    (fun s st =>
      if st = "broadcaster-lang" then { s with broadcaster_lang := t.broadcaster_lang }
      else if st = "r9k" then { s with r9k_on := t.r9k }
      else if st = "subs-only" then { s with subs_on := t.subs_only }
      else if st = "slow" then { s with slow_on := 0 < t.slow }
      else s)
    s

/-- The per-line part of `TwitchBot.incoming` (lines 606-637): strip an
optional tag segment, parse the rest, update the user lists by command,
decode the tag, and apply NOTICE/ROOMSTATE state changes. -/
def processLine (s : BotState) (line : String) : Except String BotState :=
  let tl := line.toList
  let tagIncluded := chStarts ['@'] tl
  let tagStr := if tagIncluded then String.mk (chPartitionBefore ' ' tl) else ""
  let msgtext := if tagIncluded then String.mk (chPartitionAfter ' ' tl) else line
  do
    let m ← mkIRCMessage msgtext
    let s1 ←
      if m.IRCcmd = "353" then setUserList s m.body
      else if m.IRCcmd = "PART" || m.IRCcmd = "QUIT" then .ok (removeUser s m.username)
      else if m.IRCcmd = "JOIN" then appendUser s m.username
      else if m.IRCcmd = "MODE" then .ok (updateUser s m.IRCparams)
      else .ok s
    let tg ← mkIRCTag tagStr
    let s2 :=
      if m.IRCcmd = "NOTICE" then updateNotice s1 tg.msg_id
      else if m.IRCcmd = "ROOMSTATE" then updateRoomstate s1 tg
      else s1
    .ok s2

/-! ## Chat-server discovery: `TwitchBot.__request_chat_server`
(twitchbot.py lines 511-523) -/

/-- A JSON value, as produced by `requests.Response.json()`. -/
inductive JVal where
  | jNull
  | jBool (b : Bool)
  | jNum (n : Int)
  | jStr (s : String)
  | jArr (xs : List JVal)
  | jObj (fields : List (String × JVal))

/-- Lookup in a decoded JSON object (Python dict subscript; `none` models
the `KeyError` of a missing key). -/
def lookupField : List (String × JVal) → String → Option JVal
  | [], _ => none
  | (k, v) :: rest, key => if k == key then some v else lookupField rest key

/-- The possible outcomes of `requests.get(...)` followed by `r.json()`:
a transport failure, an unparsable body, or a decoded JSON payload. -/
inductive FetchOutcome where
  | netError
  | badJSON
  | payload (v : JVal)

/-- Model of `TwitchBot.__request_chat_server`: the `try` block only catches
`KeyError` and `IndexError`; a transport error from `requests.get`, a JSON
decode error from `r.json()`, and type errors from subscripting
non-container values all escape. -/
def requestChatServer : FetchOutcome → Except String String
  | .netError => .error "requests.exceptions.ConnectionError"
  | .badJSON => .error "json.JSONDecodeError"
  | .payload main =>
    match main with
    | .jObj fields =>
      match lookupField fields "servers" with
      | none => .ok "irc.twitch.tv"
      | some (.jArr []) => .ok "irc.twitch.tv"
      | some (.jArr (x :: _)) =>
        match x with
        | .jStr s => .ok (String.mk ((chSplit ':' s.toList).headD []))
        | _ => .error "AttributeError: split"
      | some (.jStr s) =>
        match s.toList with
        | [] => .ok "irc.twitch.tv"
        | c :: _ => .ok (String.mk ((chSplit ':' [c]).headD []))
      | some (.jObj _) => .ok "irc.twitch.tv"
      | some _ => .error "TypeError: not subscriptable"
    | _ => .error "TypeError: not subscriptable"

/-! ## User variables: `TwitchBot.newUserVar` (twitchbot.py lines 699-707) -/

/-- A Python value stored in a user variable. -/
inductive PyConst where
  | pyNone
  | pyBool (b : Bool)
  | pyInt (n : Int)
  | pyStr (s : String)
deriving Repr, DecidableEq

/-- The Python type tag kept in a variable record. -/
inductive VarType where
  | vBool
  | vStr
  | vInt
  | vFloat
deriving Repr, DecidableEq

/-- One record of the `self.__variables` store. -/
structure VarRec where
  value : PyConst := .pyNone
  vtype : Option VarType := none
deriving Repr, DecidableEq

/-- The `re.fullmatch('[a-z][\\w_]+', varname)` test: a lowercase letter
followed by at least one word character. -/
def validVarName (s : String) : Bool :=
  match s.toList with
  | [] => false
  | c :: rest => c.isLower && !rest.isEmpty && rest.all (fun d => d.isAlphanum || d == '_')

/-- Model of `TwitchBot.newUserVar` (lines 699-707): after the duplicate and name
checks it assigns into `self.__variables[varname]['value']`, but the
per-name record was never created, so the subscript raises `KeyError`. -/
def newUserVar (vars : List (String × VarRec)) (varname : String) (value : PyConst)
    (vartype : Option VarType) : Except String (List (String × VarRec)) :=
  if (vars.lookup varname).isSome then .error "KeyError: Variable already exists."
  else if validVarName varname = false then
    .error "ValueError: Variable must start with a letter"
  else
    match vars.lookup varname with
    | some _ =>
      .ok (vars.map (fun p =>
        if p.1 == varname then (p.1, { value := value, vtype := vartype }) else p))
    | none => .error "KeyError: varname"

/-! ## The PING reply in `TwitchBot.incoming` (twitchbot.py lines 600-604) -/

/-- The PONG sends performed by one `incoming()` call on a received batch:
the batch is stripped and a single `find("PING")` over the whole text
decides whether one reply is sent, before any line is processed. -/
def incomingPongs (text : String) : List String :=
  if pyFindList "PING".toList (chStrip text.toList) ≠ -1 then
    ["PONG tmi.twitch.tv\r\n"]
  else []

/-! ## The `for line in text.split('\n')` loop of `TwitchBot.incoming` -/

/-- Process a batch of lines in order, threading the session state. -/
def processLines : BotState → List String → Except String BotState
  | s, [] => .ok s
  | s, l :: rest => do
    let s1 ← processLine s l
    processLines s1 rest

/-! ## Concrete inputs used by the claim theorems -/

/-- The decoded tag of the segment `@bits=100;color=red`. -/
def c1t : Tag :=
  match mkIRCTag "@bits=100;color=red" with
  | .ok t => t
  | .error _ => {}

/-- A registered non-looping one-entry timer list: 5-second timer created
at instant 0 (so due at instant 5), paused before it became due. -/
def quirkEntry : TEntry :=
  { timer := { timerType := "sec", rawDelay := 5, time_d := 5, random := false,
               randRange := [], loop := false, active := true },
    code := 0, paused := true }

/-- Two scheduler sweeps around `quirkEntry`: one at instant 6 while the
entry is paused, then a resume of code 0 and a second sweep at instant 7.
Returns the codes fired across both sweeps and the surviving entries. -/
def quirkRun : Except String (List Nat × List TEntry) := do
  let (es1, f1) ← sweep 6 true [quirkEntry]
  let (es2, f2) ← sweep 7 true (resumeEntries 0 es1)
  .ok (f1 ++ f2, es2)

/-- A looping 5-second timer entry, paused, due at instant 5. -/
def c4loopEntry : TEntry :=
  { timer := { timerType := "sec", rawDelay := 5, time_d := 5, random := false,
               randRange := [], loop := true, active := true },
    code := 1, paused := true }

/-- An active looping range-based timer (a state the claims quantify over;
the registration path itself already raises for any range). -/
def c6randTimer : Timer :=
  { timerType := "sec", rawDelay := 0, time_d := 0, random := true,
    randRange := [.rInt 1, .rInt 5], loop := true, active := true }

/-- An active looping fixed-delay timer: 5 seconds, due at instant 5. -/
def c6loopTimer : Timer :=
  { timerType := "sec", rawDelay := 5, time_d := 5, random := false,
    randRange := [], loop := true, active := true }

/-- The tag keys whose values go through `int(value)` during decoding. -/
def intTagKeys : List String :=
  ["room-id", "user-id", "bits", "slow", "msg-param-months", "ban-duration"]

/-- A decodable token: either skipped (fewer than two `=`-parts), or its
key is not integer-valued, or its value parses as an integer. -/
def tagTokOk (tok : String) : Bool :=
  if 2 ≤ ((chSplit '=' tok.toList).map String.mk).length then
    if ((chSplit '=' tok.toList).map String.mk).headD "" ∈ intTagKeys then
      (parsePyInt (((chSplit '=' tok.toList).map String.mk).getD 1 "")).isSome
    else true
  else true

/-! ## Supporting lemmas -/

@[simp] theorem exc_ok_bind {ε α β : Type} (a : α) (f : α → Except ε β) :
    (Except.ok a >>= f : Except ε β) = f a := rfl

@[simp] theorem exc_error_bind {ε α β : Type} (e : ε) (f : α → Except ε β) :
    (Except.error e >>= f : Except ε β) = .error e := rfl

theorem setTimeD_active (now delay : Int) (t : Timer) :
    (setTimeD now delay t).active = t.active := by
  unfold setTimeD
  repeat' split
  all_goals rfl

theorem setTimeD_loop (now delay : Int) (t : Timer) :
    (setTimeD now delay t).loop = t.loop := by
  unfold setTimeD
  repeat' split
  all_goals rfl

theorem setTimeD_random (now delay : Int) (t : Timer) :
    (setTimeD now delay t).random = t.random := by
  unfold setTimeD
  repeat' split
  all_goals rfl

theorem setTimeD_rawDelay (now delay : Int) (t : Timer) :
    (setTimeD now delay t).rawDelay = t.rawDelay := by
  unfold setTimeD
  repeat' split
  all_goals rfl

theorem setTimeD_timerType (now delay : Int) (t : Timer) :
    (setTimeD now delay t).timerType = t.timerType := by
  unfold setTimeD
  repeat' split
  all_goals rfl

/-! ## C2 -/

/-- C2: the parser is claimed to split a `nick!user@host` prefix into
username = part before `!`, host = part between `!` and `@`, and serv =
part after `@`.  Evaluating the embedded source at such a prefix shows
`serv` receives the part between `!` and `@` (identical to `host`),
because line 59 of twitchbot.py repeats `split('@')[0]` instead of
taking `[1]`; the claimed value would have been `"host"`. -/
theorem c2_serv_copy_bug :
    Except.map (fun m : IRCMessage => (m.username, m.host, m.serv))
        (mkIRCMessage ":nick!user@host PRIVMSG #chan :hi") =
      .ok ("nick", "user", "user") := by rfl

/-! ## C5 -/

/-- C5: registration of a range-based timer is claimed to succeed for every
two-element integer range.  It never does: `setDelay` raises
`ValueError("Random range must be two integer values.")` precisely when
`any(isinstance(x, int) ...)` holds, i.e. exactly on integer ranges — the
check is inverted (twitchbot.py line 195).  For contrast, a discrete
registration succeeds. -/
theorem c5_random_range_bug :
    (∀ lo hi : Int,
      addTimer 0 "sec" 0 true [RItem.rInt lo, RItem.rInt hi] false 0 =
        .error "ValueError: Random range must be two integer values.") ∧
    addTimer 0 "sec" 5 false [] false 0 =
      .ok { timer := { timerType := "sec", rawDelay := 5, time_d := 5,
                       random := false, randRange := [], loop := false,
                       active := true },
            code := 0, paused := false } :=
  ⟨fun _ _ => rfl, rfl⟩

/-! ## C3 (counterexample) -/

/-- C3 counterexample: constructing a parsed message CAN raise — the line
`":a "` passes the `len(text.split(' ')) < 2` guard (two single-space
pieces) but its remainder has a single whitespace token, so
`self.message.split()[1]` raises `IndexError`; and tag decoding CAN raise —
`@bits=x` reaches `int('x')`, which raises `ValueError`. -/
theorem c3_parse_raise_counterexample :
    mkIRCMessage ":a " = .error "IndexError: list index out of range" ∧
    mkIRCTag "@bits=x" = .error "ValueError: invalid literal for int()" :=
  ⟨rfl, rfl⟩

/-! ## C6 (counterexample) -/

/-- C6 counterexample: an active, due, looping range-based timer satisfies
the claim premise ("check called while active and the due instant has
passed"), but `check` raises out of `setDelay` (the inverted range check)
instead of leaving the timer active with a re-randomized next-fire
instant. -/
theorem c6_check_counterexample :
    c6randTimer.active = true ∧ c6randTimer.loop = true ∧
    c6randTimer.time_d ≤ 5 ∧
    check 5 c6randTimer =
      .error "ValueError: Random range must be two integer values." :=
  ⟨rfl, rfl, by decide, rfl⟩

/-! ## C7 (counterexample) -/

/-- C7 counterexample: `resolveServer` is claimed never to raise, returning
the fallback host on any lookup failure whatsoever including network
errors and malformed responses.  But the `try` block only catches
`KeyError`/`IndexError`: a transport error from `requests.get` and a JSON
decode error from `r.json()` happen before the `try` and escape. -/
theorem c7_resolve_counterexample :
    requestChatServer FetchOutcome.netError =
      .error "requests.exceptions.ConnectionError" ∧
    requestChatServer FetchOutcome.badJSON = .error "json.JSONDecodeError" :=
  ⟨rfl, rfl⟩

/-! ## C4 (counterexample) -/

/-- C4 counterexample: a non-looping timer that became due while paused is
claimed to fire immediately on the first sweep after resume.  Instead, the
paused sweep at instant 6 already consumes it: `check()` runs before the
paused flag is consulted, deactivates the timer, and the entry is swept
out without its callback ever firing — the post-resume sweep at instant 7
fires nothing and no entry survives. -/
theorem c4_paused_counterexample :
    quirkEntry.paused = true ∧ quirkEntry.timer.time_d ≤ 6 ∧
    quirkRun = .ok ([], []) :=
  ⟨rfl, by decide, rfl⟩

/-! ## C6 (amended) -/

/-- C6 amended: for every active timer, a firing check deactivates it when
non-looping; when looping and fixed-delay it stays active with the next
fire instant recomputed from the firing instant (for second timers,
exactly `rawDelay` later); a check before the due instant changes nothing
and returns false; but a firing check of a looping range-based timer
raises instead of re-randomizing. -/
theorem c6_check_amended (t : Timer) (now : Int) (ha : t.active = true) :
    (t.time_d ≤ now → t.loop = false →
      check now t = .ok (true, { t with active := false })) ∧
    (t.time_d ≤ now → t.loop = true → t.random = false →
      check now t = .ok (true, setTimeD now t.rawDelay t) ∧
      (t.timerType = "sec" →
        (setTimeD now t.rawDelay t).time_d = now + t.rawDelay)) ∧
    (now < t.time_d → check now t = .ok (false, t)) ∧
    (t.time_d ≤ now → t.loop = true → t.random = true →
      ∃ e, check now t = .error e) := by
  refine ⟨?_, ?_, ?_, ?_⟩
  · intro hd hl
    simp [check, ha, hd, hl]
  · intro hd hl hr
    refine ⟨by simp [check, ha, hd, hl, setDelay, hr], ?_⟩
    intro hs
    simp [setTimeD, hs]
  · intro hd
    have hn : ¬ (t.time_d ≤ now) := by omega
    simp [check, ha, hn]
  · intro hd hl hr
    by_cases h2 : t.randRange.length = 2
    · by_cases h3 : t.randRange.any isInstInt
      · exact ⟨"ValueError: Random range must be two integer values.",
          by simp [check, ha, hd, hl, setDelay, hr, h2, h3]⟩
      · exact ⟨"ValueError: non-integer argument to randint",
          by simp [check, ha, hd, hl, setDelay, hr, h2, h3]⟩
    · exact ⟨"ValueError: Timer random range needs two specified values.",
        by simp [check, ha, hd, hl, setDelay, hr, h2]⟩

/-- C6 witness: the looping 5-second timer due at 5, checked at 7, fires
and is re-armed by `setTimeD`. -/
theorem c6_check_amended_witness :
    check 7 c6loopTimer = .ok (true, setTimeD 7 c6loopTimer.rawDelay c6loopTimer) :=
  (((c6_check_amended c6loopTimer 7 rfl).2.1) (by decide) rfl rfl).1

/-! ## C4 (amended) -/

/-- C4 amended: a registered entry that becomes due while paused does NOT
fire on the first sweep after resume.  Non-looping: the paused sweep
itself consumes the timer (check deactivates it, the entry is swept out,
no callback ever fires).  Looping fixed-delay: the paused sweep re-arms
the next-fire instant to the paused sweep instant plus the delay without
firing, and after resume the entry fires at the first sweep at which that
re-armed instant has passed. -/
theorem c4_pause_resume_amended (e : TEntry) (now later : Int)
    (hp : e.paused = true) (ha : e.timer.active = true)
    (hdue : e.timer.time_d ≤ now) :
    (e.timer.loop = false → sweep now true [e] = .ok ([], [])) ∧
    (e.timer.loop = true → e.timer.random = false →
      sweep now true [e] =
        .ok ([{ e with timer := setTimeD now e.timer.rawDelay e.timer }], []) ∧
      ((setTimeD now e.timer.rawDelay e.timer).time_d ≤ later →
        sweep later true
            [{ e with
               timer := setTimeD now e.timer.rawDelay e.timer,
               paused := false }] =
          .ok ([{ e with
                  timer := setTimeD later e.timer.rawDelay
                            (setTimeD now e.timer.rawDelay e.timer),
                  paused := false }], [e.code]))) := by
  constructor
  · intro hl
    simp [sweep, check, ha, hdue, hl, hp]
  · intro hl hr
    constructor
    · simp [sweep, check, ha, hdue, hl, hr, hp, setDelay, setTimeD_active]
    · intro h2
      simp [sweep, check, setTimeD_active, setTimeD_loop, setTimeD_random,
            setTimeD_rawDelay, ha, h2, hl, hr, setDelay]

/-- C4 witness: the looping paused entry, swept at 6, is re-armed (to 11)
without firing. -/
theorem c4_pause_resume_amended_witness :
    sweep 6 true [c4loopEntry] =
      .ok ([{ c4loopEntry with
              timer := setTimeD 6 c4loopEntry.timer.rawDelay c4loopEntry.timer }],
           []) :=
  (((c4_pause_resume_amended c4loopEntry 6 11 rfl rfl (by decide)).2) rfl rfl).1

/-! ## C9 -/

/-- C9: for every undeclared variable whose name passes the
`[a-z][\w_]+` validity test, `newUserVar` raises `KeyError` — the method
assigns into `self.__variables[varname]['value']` without ever creating
the per-name record, so the subscript lookup fails; and the operation
never returns successfully for any input at all. -/
theorem c9_newUserVar_keyerror (vars : List (String × VarRec)) (varname : String)
    (value : PyConst) (vartype : Option VarType) :
    (vars.lookup varname = none → validVarName varname = true →
      newUserVar vars varname value vartype = .error "KeyError: varname") ∧
    ∀ res, newUserVar vars varname value vartype ≠ .ok res := by
  constructor
  · intro h1 h2
    simp [newUserVar, h1, h2]
  · intro res h
    unfold newUserVar at h
    split at h
    · exact Except.noConfusion h
    · split at h
      · exact Except.noConfusion h
      · split at h
        · simp_all
        · exact Except.noConfusion h

/-- C9 witness: declaring the fresh, validly named variable `abc` in an
empty store raises the `KeyError`. -/
theorem c9_newUserVar_keyerror_witness :
    newUserVar [] "abc" PyConst.pyNone none = .error "KeyError: varname" :=
  (c9_newUserVar_keyerror [] "abc" PyConst.pyNone none).1 rfl (by decide)

/-! ## C7 (amended) -/

/-- C7 amended: on a JSON object response, a missing `servers` key or an
empty `servers` array falls back to the default host `irc.twitch.tv`, and
a nonempty string array yields the first entry's host part; but a network
error or an undecodable body raises instead of falling back. -/
theorem c7_resolve_amended (fields : List (String × JVal)) (s : String)
    (rest : List JVal) :
    (lookupField fields "servers" = none →
      requestChatServer (.payload (.jObj fields)) = .ok "irc.twitch.tv") ∧
    (lookupField fields "servers" = some (.jArr []) →
      requestChatServer (.payload (.jObj fields)) = .ok "irc.twitch.tv") ∧
    (lookupField fields "servers" = some (.jArr (.jStr s :: rest)) →
      requestChatServer (.payload (.jObj fields)) =
        .ok (String.mk ((chSplit ':' s.toList).headD []))) ∧
    requestChatServer .netError = .error "requests.exceptions.ConnectionError" ∧
    requestChatServer .badJSON = .error "json.JSONDecodeError" := by
  refine ⟨?_, ?_, ?_, rfl, rfl⟩ <;> intro h <;> simp [requestChatServer, h]

/-- C7 witness: a well-formed discovery response yields its first host. -/
theorem c7_resolve_amended_witness :
    requestChatServer
        (.payload (.jObj [("servers", .jArr [.jStr "irc.chat.twitch.tv:6667"])])) =
      .ok "irc.chat.twitch.tv" :=
  (c7_resolve_amended [("servers", JVal.jArr [JVal.jStr "irc.chat.twitch.tv:6667"])]
    "irc.chat.twitch.tv:6667" []).2.2.1 rfl

/-! ## C8 -/

theorem erase_append_self {α : Type} [DecidableEq α] (x : α) (l : List α)
    (h : x ∉ l) : (l ++ [x]).erase x = l := by
  induction l with
  | nil => simp
  | cons a as ih =>
    have hne : ¬ (a == x) = true := by
      simp only [beq_iff_eq]
      intro hax
      exact h (hax ▸ List.mem_cons_self a as)
    rw [List.cons_append, List.erase_cons_tail hne,
        ih (fun hm => h (List.mem_cons_of_mem a hm))]

theorem processLine_c8join (s : BotState) (h : "alice" ∉ s.userlist) :
    processLine s ":alice!alice@alice.tmi.twitch.tv JOIN #chan" =
      .ok { s with userlist := s.userlist ++ ["alice"] } := by
  have base : processLine s ":alice!alice@alice.tmi.twitch.tv JOIN #chan" =
      .ok { s with userlist :=
        if "alice" ∈ s.userlist then s.userlist else s.userlist ++ ["alice"] } := by
    rfl
  rw [base, if_neg h]

theorem processLine_c8mode (s : BotState) (h : "alice" ∉ s.modlist) :
    processLine s ":jtv MODE #chan +o alice" =
      .ok { s with modlist := s.modlist ++ ["alice"] } := by
  have base : processLine s ":jtv MODE #chan +o alice" =
      .ok (if "alice" ∈ s.modlist then s
           else { s with modlist := s.modlist ++ ["alice"] }) := by
    rfl
  rw [base, if_neg h]

theorem processLine_c8part (s : BotState) :
    processLine s ":alice!alice@alice.tmi.twitch.tv PART #chan" =
      .ok { s with
            userlist := if "alice" ∈ s.userlist then s.userlist.erase "alice"
                        else s.userlist,
            modlist := if "alice" ∈ s.modlist then s.modlist.erase "alice"
                       else s.modlist } := by
  rfl

/-- C8: from any session state in which `alice` is in neither list,
processing JOIN `alice`, then MODE `+o alice`, then PART `alice` (as raw
protocol lines through the full parser and dispatcher) restores the exact
starting state — in particular `alice` is absent from both the user list
and the moderator list. -/
theorem c8_join_mode_part (s : BotState)
    (h1 : "alice" ∉ s.userlist) (h2 : "alice" ∉ s.modlist) :
    processLines s
        [":alice!alice@alice.tmi.twitch.tv JOIN #chan",
         ":jtv MODE #chan +o alice",
         ":alice!alice@alice.tmi.twitch.tv PART #chan"] = .ok s ∧
    "alice" ∉ s.userlist ∧ "alice" ∉ s.modlist := by
  refine ⟨?_, h1, h2⟩
  simp only [processLines]
  rw [processLine_c8join s h1, exc_ok_bind]
  rw [processLine_c8mode { s with userlist := s.userlist ++ ["alice"] } h2,
      exc_ok_bind]
  rw [processLine_c8part, exc_ok_bind]
  have hm1 : "alice" ∈ s.userlist ++ ["alice"] := by simp
  have hm2 : "alice" ∈ s.modlist ++ ["alice"] := by simp
  simp only [hm1, hm2, if_pos]
  rw [erase_append_self "alice" s.userlist h1,
      erase_append_self "alice" s.modlist h2]

/-- C8 witness: the three-line sequence on the empty session state. -/
theorem c8_join_mode_part_witness :
    processLines {}
        [":alice!alice@alice.tmi.twitch.tv JOIN #chan",
         ":jtv MODE #chan +o alice",
         ":alice!alice@alice.tmi.twitch.tv PART #chan"] = .ok ({} : BotState) ∧
    "alice" ∉ BotState.userlist {} ∧ "alice" ∉ BotState.modlist {} :=
  c8_join_mode_part {} (by decide) (by decide)

/-! ## C1 (supporting lemmas about the tag fold) -/

theorem lastV_cons_ne {α : Type} (a : α) (l : List α) (h : l ≠ []) :
    lastV (a :: l) = lastV l := by
  cases l with
  | nil => exact absurd rfl h
  | cons b t => rfl

theorem lastV_ne_none {α : Type} (l : List α) (h : l ≠ []) : lastV l ≠ none := by
  induction l with
  | nil => exact absurd rfl h
  | cons a t ih =>
    cases t with
    | nil => simp [lastV]
    | cons b u =>
      rw [lastV_cons_ne a (b :: u) (by simp)]
      exact ih (by simp)

theorem applyKV_spec (t : Tag) (item value : String) (t1 : Tag)
    (h : applyKV t item value = .ok t1) :
    t1.isCheer = (if item = "bits" then true else t.isCheer) ∧
    (if item = "bits" then parsePyInt value = some t1.bits
     else t1.bits = t.bits) := by
  unfold applyKV at h
  by_cases h1 : item = "badges"
  · rw [if_pos h1] at h
    subst h1
    injection h with h
    subst h
    exact ⟨by simp, by simp⟩
  rw [if_neg h1] at h
  by_cases h2 : item = "color"
  · rw [if_pos h2] at h
    subst h2
    injection h with h
    subst h
    exact ⟨by simp, by simp⟩
  rw [if_neg h2] at h
  by_cases h3 : item = "display-name"
  · rw [if_pos h3] at h
    subst h3
    injection h with h
    subst h
    exact ⟨by simp, by simp⟩
  rw [if_neg h3] at h
  by_cases h4 : item = "emotes"
  · rw [if_pos h4] at h
    subst h4
    injection h with h
    subst h
    exact ⟨by simp, by simp⟩
  rw [if_neg h4] at h
  by_cases h5 : item = "id"
  · rw [if_pos h5] at h
    subst h5
    injection h with h
    subst h
    exact ⟨by simp, by simp⟩
  rw [if_neg h5] at h
  by_cases h6 : item = "mod"
  · rw [if_pos h6] at h
    subst h6
    injection h with h
    subst h
    exact ⟨by simp, by simp⟩
  rw [if_neg h6] at h
  by_cases h7 : item = "subscriber"
  · rw [if_pos h7] at h
    subst h7
    injection h with h
    subst h
    exact ⟨by simp, by simp⟩
  rw [if_neg h7] at h
  by_cases h8 : item = "turbo"
  · rw [if_pos h8] at h
    subst h8
    injection h with h
    subst h
    exact ⟨by simp, by simp⟩
  rw [if_neg h8] at h
  by_cases h9 : item = "room-id"
  · rw [if_pos h9] at h
    subst h9
    cases hp : parsePyInt value with
    | some n =>
      rw [hp] at h
      injection h with h
      subst h
      exact ⟨by simp, by simp⟩
    | none =>
      rw [hp] at h
      exact Except.noConfusion h
  rw [if_neg h9] at h
  by_cases h10 : item = "user-id"
  · rw [if_pos h10] at h
    subst h10
    cases hp : parsePyInt value with
    | some n =>
      rw [hp] at h
      injection h with h
      subst h
      exact ⟨by simp, by simp⟩
    | none =>
      rw [hp] at h
      exact Except.noConfusion h
  rw [if_neg h10] at h
  by_cases h11 : item = "user-type"
  · rw [if_pos h11] at h
    subst h11
    injection h with h
    subst h
    exact ⟨by simp, by simp⟩
  rw [if_neg h11] at h
  by_cases h12 : item = "bits"
  · rw [if_pos h12] at h
    subst h12
    cases hp : parsePyInt value with
    | some n =>
      rw [hp] at h
      injection h with h
      subst h
      exact ⟨by simp, by simp [hp]⟩
    | none =>
      rw [hp] at h
      exact Except.noConfusion h
  rw [if_neg h12] at h
  by_cases h13 : item = "emote-sets"
  · rw [if_pos h13] at h
    subst h13
    injection h with h
    subst h
    exact ⟨by simp, by simp⟩
  rw [if_neg h13] at h
  by_cases h14 : item = "broadcaster-lang"
  · rw [if_pos h14] at h
    subst h14
    injection h with h
    subst h
    exact ⟨by simp, by simp⟩
  rw [if_neg h14] at h
  by_cases h15 : item = "r9k"
  · rw [if_pos h15] at h
    subst h15
    injection h with h
    subst h
    exact ⟨by simp, by simp⟩
  rw [if_neg h15] at h
  by_cases h16 : item = "subs-only"
  · rw [if_pos h16] at h
    subst h16
    injection h with h
    subst h
    exact ⟨by simp, by simp⟩
  rw [if_neg h16] at h
  by_cases h17 : item = "slow"
  · rw [if_pos h17] at h
    subst h17
    cases hp : parsePyInt value with
    | some n =>
      rw [hp] at h
      injection h with h
      subst h
      exact ⟨by simp, by simp⟩
    | none =>
      rw [hp] at h
      exact Except.noConfusion h
  rw [if_neg h17] at h
  by_cases h18 : item = "msg-param-months"
  · rw [if_pos h18] at h
    subst h18
    cases hp : parsePyInt value with
    | some n =>
      rw [hp] at h
      injection h with h
      subst h
      exact ⟨by simp, by simp⟩
    | none =>
      rw [hp] at h
      exact Except.noConfusion h
  rw [if_neg h18] at h
  by_cases h19 : item = "system-msg"
  · rw [if_pos h19] at h
    subst h19
    injection h with h
    subst h
    exact ⟨by simp, by simp⟩
  rw [if_neg h19] at h
  by_cases h20 : item = "login"
  · rw [if_pos h20] at h
    subst h20
    injection h with h
    subst h
    exact ⟨by simp, by simp⟩
  rw [if_neg h20] at h
  by_cases h21 : item = "ban-duration"
  · rw [if_pos h21] at h
    subst h21
    cases hp : parsePyInt value with
    | some n =>
      rw [hp] at h
      injection h with h
      subst h
      exact ⟨by simp, by simp⟩
    | none =>
      rw [hp] at h
      exact Except.noConfusion h
  rw [if_neg h21] at h
  by_cases h22 : item = "ban-reason"
  · rw [if_pos h22] at h
    subst h22
    injection h with h
    subst h
    exact ⟨by simp, by simp⟩
  rw [if_neg h22] at h
  injection h with h
  subst h
  exact ⟨by simp [if_neg h12], by simp [if_neg h12]⟩

theorem applyKV_ok (t : Tag) (item value : String)
    (h : item ∈ intTagKeys → (parsePyInt value).isSome = true) :
    ∃ t1, applyKV t item value = .ok t1 := by
  unfold applyKV
  by_cases h1 : item = "badges"
  · rw [if_pos h1]
    exact ⟨_, rfl⟩
  rw [if_neg h1]
  by_cases h2 : item = "color"
  · rw [if_pos h2]
    exact ⟨_, rfl⟩
  rw [if_neg h2]
  by_cases h3 : item = "display-name"
  · rw [if_pos h3]
    exact ⟨_, rfl⟩
  rw [if_neg h3]
  by_cases h4 : item = "emotes"
  · rw [if_pos h4]
    exact ⟨_, rfl⟩
  rw [if_neg h4]
  by_cases h5 : item = "id"
  · rw [if_pos h5]
    exact ⟨_, rfl⟩
  rw [if_neg h5]
  by_cases h6 : item = "mod"
  · rw [if_pos h6]
    exact ⟨_, rfl⟩
  rw [if_neg h6]
  by_cases h7 : item = "subscriber"
  · rw [if_pos h7]
    exact ⟨_, rfl⟩
  rw [if_neg h7]
  by_cases h8 : item = "turbo"
  · rw [if_pos h8]
    exact ⟨_, rfl⟩
  rw [if_neg h8]
  by_cases h9 : item = "room-id"
  · rw [if_pos h9]
    obtain ⟨n, hn⟩ :=
      Option.isSome_iff_exists.mp (h (by rw [h9]; decide))
    rw [hn]
    exact ⟨_, rfl⟩
  rw [if_neg h9]
  by_cases h10 : item = "user-id"
  · rw [if_pos h10]
    obtain ⟨n, hn⟩ :=
      Option.isSome_iff_exists.mp (h (by rw [h10]; decide))
    rw [hn]
    exact ⟨_, rfl⟩
  rw [if_neg h10]
  by_cases h11 : item = "user-type"
  · rw [if_pos h11]
    exact ⟨_, rfl⟩
  rw [if_neg h11]
  by_cases h12 : item = "bits"
  · rw [if_pos h12]
    obtain ⟨n, hn⟩ :=
      Option.isSome_iff_exists.mp (h (by rw [h12]; decide))
    rw [hn]
    exact ⟨_, rfl⟩
  rw [if_neg h12]
  by_cases h13 : item = "emote-sets"
  · rw [if_pos h13]
    exact ⟨_, rfl⟩
  rw [if_neg h13]
  by_cases h14 : item = "broadcaster-lang"
  · rw [if_pos h14]
    exact ⟨_, rfl⟩
  rw [if_neg h14]
  by_cases h15 : item = "r9k"
  · rw [if_pos h15]
    exact ⟨_, rfl⟩
  rw [if_neg h15]
  by_cases h16 : item = "subs-only"
  · rw [if_pos h16]
    exact ⟨_, rfl⟩
  rw [if_neg h16]
  by_cases h17 : item = "slow"
  · rw [if_pos h17]
    obtain ⟨n, hn⟩ :=
      Option.isSome_iff_exists.mp (h (by rw [h17]; decide))
    rw [hn]
    exact ⟨_, rfl⟩
  rw [if_neg h17]
  by_cases h18 : item = "msg-param-months"
  · rw [if_pos h18]
    obtain ⟨n, hn⟩ :=
      Option.isSome_iff_exists.mp (h (by rw [h18]; decide))
    rw [hn]
    exact ⟨_, rfl⟩
  rw [if_neg h18]
  by_cases h19 : item = "system-msg"
  · rw [if_pos h19]
    exact ⟨_, rfl⟩
  rw [if_neg h19]
  by_cases h20 : item = "login"
  · rw [if_pos h20]
    exact ⟨_, rfl⟩
  rw [if_neg h20]
  by_cases h21 : item = "ban-duration"
  · rw [if_pos h21]
    obtain ⟨n, hn⟩ :=
      Option.isSome_iff_exists.mp (h (by rw [h21]; decide))
    rw [hn]
    exact ⟨_, rfl⟩
  rw [if_neg h21]
  by_cases h22 : item = "ban-reason"
  · rw [if_pos h22]
    exact ⟨_, rfl⟩
  rw [if_neg h22]
  exact ⟨t, rfl⟩

theorem applyKV_isCheer (t : Tag) (item value : String) (t1 : Tag)
    (h : applyKV t item value = .ok t1) :
    t1.isCheer = (if item = "bits" then true else t.isCheer) :=
  (applyKV_spec t item value t1 h).1

theorem applyKV_bits_eq (t : Tag) (item value : String) (t1 : Tag)
    (h : applyKV t item value = .ok t1) (hi : item = "bits") :
    parsePyInt value = some t1.bits := by
  have h2 := (applyKV_spec t item value t1 h).2
  rw [if_pos hi] at h2
  exact h2

theorem applyKV_bits_ne (t : Tag) (item value : String) (t1 : Tag)
    (h : applyKV t item value = .ok t1) (hi : item ≠ "bits") :
    t1.bits = t.bits := by
  have h2 := (applyKV_spec t item value t1 h).2
  rw [if_neg hi] at h2
  exact h2

theorem applyTag_isCheer (t : Tag) (tok : String) (t1 : Tag)
    (h : applyTag t tok = .ok t1) :
    t1.isCheer = (t.isCheer || (bitsVal? tok).isSome) := by
  simp only [applyTag] at h
  unfold bitsVal?
  split at h
  · rename_i hlen
    split at h
    · rename_i t2 hkv
      have hc := applyKV_isCheer t _ _ t2 hkv
      simp only [Except.ok.injEq] at h
      subst h
      show t2.isCheer = _
      rw [hc, if_pos hlen]
      by_cases hb :
          ((chSplit '=' tok.toList).map String.mk).headD "" = "bits"
      · rw [if_pos hb, if_pos hb]
        simp
      · rw [if_neg hb, if_neg hb]
        simp
    · exact Except.noConfusion h
  · rename_i hlen
    simp only [Except.ok.injEq] at h
    subst h
    rw [if_neg hlen]
    simp

theorem applyTag_bits_some (t : Tag) (tok : String) (t1 : Tag) (v : String)
    (h : applyTag t tok = .ok t1) (hv : bitsVal? tok = some v) :
    parsePyInt v = some t1.bits := by
  simp only [applyTag] at h
  unfold bitsVal? at hv
  split at h
  · rename_i hlen
    rw [if_pos hlen] at hv
    split at hv
    · rename_i hhead
      simp only [Option.some.injEq] at hv
      subst hv
      split at h
      · rename_i t2 hkv
        simp only [Except.ok.injEq] at h
        subst h
        show parsePyInt _ = some t2.bits
        exact applyKV_bits_eq t _ _ t2 hkv hhead
      · exact Except.noConfusion h
    · exact Option.noConfusion hv
  · rename_i hlen
    rw [if_neg hlen] at hv
    exact Option.noConfusion hv

theorem applyTag_bits_none (t : Tag) (tok : String) (t1 : Tag)
    (h : applyTag t tok = .ok t1) (hv : bitsVal? tok = none) :
    t1.bits = t.bits := by
  simp only [applyTag] at h
  unfold bitsVal? at hv
  split at h
  · rename_i hlen
    rw [if_pos hlen] at hv
    split at h
    · rename_i t2 hkv
      simp only [Except.ok.injEq] at h
      subst h
      show t2.bits = t.bits
      refine applyKV_bits_ne t _ _ t2 hkv ?_
      intro hhead
      rw [if_pos hhead] at hv
      exact Option.noConfusion hv
    · exact Except.noConfusion h
  · simp only [Except.ok.injEq] at h
    subst h
    rfl

theorem foldTags_isCheer (toks : List String) : ∀ (t t' : Tag),
    toks.foldlM applyTag t = .ok t' →
    t'.isCheer = (t.isCheer || toks.any (fun tok => (bitsVal? tok).isSome)) := by
  induction toks with
  | nil =>
    intro t t' h
    simp only [List.foldlM_nil] at h
    cases h
    simp
  | cons a as ih =>
    intro t t' h
    rw [List.foldlM_cons] at h
    cases hkv : applyTag t a with
    | error e => rw [hkv] at h; exact Except.noConfusion h
    | ok t2 =>
      rw [hkv, exc_ok_bind] at h
      rw [ih t2 t' h, applyTag_isCheer t a t2 hkv]
      simp [Bool.or_assoc]

theorem foldTags_bits (toks : List String) : ∀ (t t' : Tag),
    toks.foldlM applyTag t = .ok t' →
    (lastV (toks.filterMap bitsVal?) = none → t'.bits = t.bits) ∧
    (∀ v, lastV (toks.filterMap bitsVal?) = some v →
      parsePyInt v = some t'.bits) := by
  induction toks with
  | nil =>
    intro t t' h
    simp only [List.foldlM_nil] at h
    cases h
    exact ⟨fun _ => rfl, fun v hv => Option.noConfusion hv⟩
  | cons a as ih =>
    intro t t' h
    rw [List.foldlM_cons] at h
    cases hkv : applyTag t a with
    | error e => rw [hkv] at h; exact Except.noConfusion h
    | ok t2 =>
      rw [hkv, exc_ok_bind] at h
      have iha := ih t2 t' h
      rw [List.filterMap_cons]
      cases hb : bitsVal? a with
      | none =>
        refine ⟨fun hl => ?_, iha.2⟩
        rw [iha.1 hl]
        exact applyTag_bits_none t a t2 hkv hb
      | some v0 =>
        by_cases hrest : as.filterMap bitsVal? = []
        · rw [hrest]
          constructor
          · intro hl
            exact Option.noConfusion hl
          · intro v hv
            have hv0 : v0 = v := by
              simpa [lastV] using hv
            subst hv0
            have h2 : t'.bits = t2.bits := iha.1 (by rw [hrest]; rfl)
            rw [h2]
            exact applyTag_bits_some t a t2 v0 hkv hb
        · rw [lastV_cons_ne v0 _ hrest]
          exact ⟨fun hl => absurd hl (lastV_ne_none _ hrest), iha.2⟩

/-! ## C1 -/

/-- C1: whenever tag decoding completes, `isCheer` is true exactly when a
decodable `bits` key=value entry is present in the raw segment, and the
`bits` field carries the parsed integer of the (last) `bits` entry value;
decoding the absent (empty) segment yields the all-default record with
`isCheer = false` and `bits = 0`. -/
theorem c1_tag_bits_isCheer (raw : String) (t : Tag)
    (h : mkIRCTag raw = .ok t) :
    (t.isCheer = true ↔ bitsValues raw ≠ []) ∧
    (∀ v, lastV (bitsValues raw) = some v → parsePyInt v = some t.bits) ∧
    mkIRCTag "" = .ok {} ∧ Tag.isCheer {} = false ∧ Tag.bits {} = 0 := by
  have hc := foldTags_isCheer (tagTokens raw) {} t h
  have hb := foldTags_bits (tagTokens raw) {} t h
  refine ⟨?_, hb.2, rfl, rfl, rfl⟩
  rw [hc]
  show ((false || _) = true ↔ _)
  rw [Bool.false_or]
  unfold bitsValues
  constructor
  · intro ha hnil
    obtain ⟨tok, htok, hs⟩ := List.any_eq_true.mp ha
    have hnone : bitsVal? tok = none :=
      List.filterMap_eq_nil_iff.mp hnil tok htok
    rw [hnone] at hs
    exact Bool.noConfusion hs
  · intro hne
    by_contra hany
    apply hne
    rw [List.filterMap_eq_nil_iff]
    intro tok htok
    cases hbt : bitsVal? tok with
    | none => rfl
    | some v =>
      exact absurd (List.any_eq_true.mpr ⟨tok, htok, by rw [hbt]; rfl⟩) hany

/-- C1 witness: the segment `@bits=100;color=red` decodes with
`isCheer = true` and `bits` the integer parse of `"100"`. -/
theorem c1_tag_bits_isCheer_witness :
    c1t.isCheer = true ∧ parsePyInt "100" = some c1t.bits := by
  have h := c1_tag_bits_isCheer "@bits=100;color=red" c1t (by rfl)
  exact ⟨h.1.mpr (by decide), h.2.1 "100" (by rfl)⟩

/-! ## C3 (amended) -/

theorem applyTag_ok (t : Tag) (tok : String) (h : tagTokOk tok = true) :
    ∃ t1, applyTag t tok = .ok t1 := by
  unfold tagTokOk at h
  by_cases hlen : 2 ≤ ((chSplit '=' tok.toList).map String.mk).length
  · rw [if_pos hlen] at h
    have h2 : ((chSplit '=' tok.toList).map String.mk).headD "" ∈ intTagKeys →
        (parsePyInt (((chSplit '=' tok.toList).map String.mk).getD 1 "")).isSome =
          true := by
      intro hm
      rw [if_pos hm] at h
      exact h
    obtain ⟨t1, ht1⟩ := applyKV_ok t _ _ h2
    have happ : applyTag t tok =
        .ok { t1 with tags :=
          t1.tags ++ [((chSplit '=' tok.toList).map String.mk).headD ""] } := by
      simp only [applyTag]
      rw [if_pos hlen, ht1]
    exact ⟨_, happ⟩
  · refine ⟨t, ?_⟩
    simp only [applyTag]
    rw [if_neg hlen]

theorem foldTags_ok (toks : List String) : ∀ t : Tag,
    (∀ tok ∈ toks, tagTokOk tok = true) →
    ∃ t', toks.foldlM applyTag t = .ok t' := by
  induction toks with
  | nil =>
    intro t _
    exact ⟨t, rfl⟩
  | cons a as ih =>
    intro t hok
    obtain ⟨t1, ht1⟩ := applyTag_ok t a (hok a (List.mem_cons_self a as))
    obtain ⟨t', ht'⟩ := ih t1 (fun tok htok => hok tok (List.mem_cons_of_mem a htok))
    refine ⟨t', ?_⟩
    rw [List.foldlM_cons, ht1, exc_ok_bind]
    exact ht'

/-- C3 amended: a line not starting with `:` parses to the all-default
record without raising, as does any line whose single-space split has
fewer than two pieces; and tag decoding succeeds on every raw segment
whose integer-valued keys carry parsable integer values.  (The
counterexample theorem shows both remaining claims fail: a `:`-prefixed
line whose remainder has a single whitespace token raises `IndexError`,
and an integer-valued tag key with a non-numeric value raises
`ValueError`.) -/
theorem c3_failsoft_amended :
    (∀ text : String, chStarts [':'] text.toList = false →
      mkIRCMessage text = .ok {}) ∧
    (∀ text : String, (chSplit ' ' text.toList).length < 2 →
      mkIRCMessage text = .ok {}) ∧
    (∀ raw : String, (∀ tok ∈ tagTokens raw, tagTokOk tok = true) →
      ∃ t, mkIRCTag raw = .ok t) := by
  refine ⟨?_, ?_, ?_⟩
  · intro text h
    simp [mkIRCMessage, show chStarts [':'] text.data = false from h]
  · intro text h
    by_cases hs : chStarts [':'] text.data = true
    · simp [mkIRCMessage, hs, show (chSplit ' ' text.data).length < 2 from h]
    · have hs2 : chStarts [':'] text.data = false := by
        cases hb : chStarts [':'] text.data
        · rfl
        · exact absurd hb hs
      simp [mkIRCMessage, hs2]
  · intro raw hok
    exact foldTags_ok (tagTokens raw) {} hok

/-- C3 witness: a bare `PING` line and a one-token `:`-line degrade to the
default record, and a tag segment with unknown keys and a numeric `bits`
decodes successfully. -/
theorem c3_failsoft_amended_witness :
    mkIRCMessage "PING :tmi.twitch.tv" = .ok {} ∧
    mkIRCMessage ":x" = .ok {} ∧
    (mkIRCTag "@color=blue;unknown=zzz;bits=7").isOk = true := by
  refine ⟨c3_failsoft_amended.1 "PING :tmi.twitch.tv" (by rfl),
          c3_failsoft_amended.2.1 ":x" (by decide), ?_⟩
  obtain ⟨t, ht⟩ :=
    c3_failsoft_amended.2.2 "@color=blue;unknown=zzz;bits=7" (by decide)
  rw [ht]
  rfl

/-! ## C10 (supporting lemmas) -/

theorem chStarts_iff (n : List Char) : ∀ h : List Char,
    chStarts n h = true ↔ ∃ b, h = n ++ b := by
  induction n with
  | nil =>
    intro h
    constructor
    · intro _
      exact ⟨h, rfl⟩
    · intro _
      rfl
  | cons p ps ih =>
    intro h
    cases h with
    | nil =>
      simp [chStarts]
    | cons c cs =>
      rw [show chStarts (p :: ps) (c :: cs) = (p == c && chStarts ps cs) from rfl]
      simp only [Bool.and_eq_true, beq_iff_eq, ih cs, List.cons_append,
        List.cons.injEq]
      constructor
      · rintro ⟨rfl, b, rfl⟩
        exact ⟨b, rfl, rfl⟩
      · rintro ⟨b, rfl, rfl⟩
        exact ⟨rfl, b, rfl⟩

theorem chFindIdx_isSome (n : List Char) : ∀ h : List Char,
    (chFindIdx n h).isSome = true ↔ ∃ a b, h = a ++ n ++ b := by
  intro h
  induction h with
  | nil =>
    by_cases hs : chStarts n []
    · obtain ⟨b, hb⟩ := (chStarts_iff n []).mp hs
      simp only [chFindIdx, if_pos hs, Option.isSome_some, true_iff]
      exact ⟨[], b, by simpa using hb⟩
    · simp only [chFindIdx, if_neg hs, Option.isSome_none]
      constructor
      · intro hx
        exact Bool.noConfusion hx
      · rintro ⟨a, b, hab⟩
        exfalso
        have hlen := congrArg List.length hab
        simp only [List.length_nil, List.length_append] at hlen
        have hn : n = [] := List.eq_nil_of_length_eq_zero (by omega)
        exact hs (by rw [hn]; rfl)
  | cons c t iht =>
    constructor
    · intro hx
      by_cases hs : chStarts n (c :: t)
      · obtain ⟨b, hb⟩ := (chStarts_iff n _).mp hs
        exact ⟨[], b, by simpa using hb⟩
      · rw [show chFindIdx n (c :: t) =
              (if chStarts n (c :: t) then some 0
               else (chFindIdx n t).map (fun i => i + 1)) from rfl,
            if_neg hs] at hx
        rw [Option.isSome_map'] at hx
        obtain ⟨a, b, hab⟩ := iht.mp hx
        exact ⟨c :: a, b, by rw [hab]; rfl⟩
    · rintro ⟨a, b, hab⟩
      rw [show chFindIdx n (c :: t) =
            (if chStarts n (c :: t) then some 0
             else (chFindIdx n t).map (fun i => i + 1)) from rfl]
      by_cases hs : chStarts n (c :: t)
      · rw [if_pos hs]
        rfl
      · rw [if_neg hs, Option.isSome_map']
        cases a with
        | nil =>
          exact absurd ((chStarts_iff n (c :: t)).mpr ⟨b, by simpa using hab⟩) hs
        | cons a0 as =>
          simp only [List.cons_append, List.cons.injEq] at hab
          exact iht.mpr ⟨as, b, hab.2⟩

theorem pyFindList_ne (n h : List Char) :
    pyFindList n h ≠ -1 ↔ (chFindIdx n h).isSome = true := by
  constructor
  · intro hne
    cases hfi : chFindIdx n h with
    | none =>
      exact absurd (by unfold pyFindList; rw [hfi]) hne
    | some i =>
      rfl
  · intro hx hcon
    cases hfi : chFindIdx n h with
    | none =>
      rw [hfi] at hx
      exact Bool.noConfusion hx
    | some i =>
      have hval : pyFindList n h = Int.ofNat i := by
        unfold pyFindList
        rw [hfi]
      rw [hval] at hcon
      have hnn : (0 : Int) ≤ Int.ofNat i := Int.ofNat_nonneg i
      omega

/-! ## C10 -/

/-- C10: per `incoming()` call at most one PONG is sent however many lines
of the batch contain PING, and a reply is sent exactly when the substring
`PING` occurs anywhere in the stripped batch text (in particular inside a
chat message body, not only as a standalone command token). -/
theorem c10_ping_pong :
    (∀ text : String, (incomingPongs text).length ≤ 1) ∧
    (∀ text : String,
      incomingPongs text = ["PONG tmi.twitch.tv\r\n"] ↔
        ∃ a b, chStrip text.toList = a ++ "PING".toList ++ b) ∧
    incomingPongs ":nick!u@h PRIVMSG #chan :I said PING" =
      ["PONG tmi.twitch.tv\r\n"] := by
  refine ⟨?_, ?_, by rfl⟩
  · intro text
    unfold incomingPongs
    split <;> simp
  · intro text
    have hiff := (pyFindList_ne "PING".toList (chStrip text.toList)).trans
      (chFindIdx_isSome "PING".toList (chStrip text.toList))
    unfold incomingPongs
    by_cases hc : pyFindList "PING".toList (chStrip text.toList) ≠ -1
    · rw [if_pos hc]
      constructor
      · intro _
        exact hiff.mp hc
      · intro _
        rfl
    · rw [if_neg hc]
      constructor
      · intro hx
        exact absurd hx (by simp)
      · intro hex
        exact absurd (hiff.mpr hex) hc

end Bitscan
